import Mathlib

/-!
Shallow embedding of the `reflector-tutorial` Soroban contract
(`src/lib.rs` and `src/reflector.rs`) and proofs of its specified
properties.

Modelling choices:
* `Address` and `Symbol` are strings (Soroban addresses and symbols are
  string-like tokens with decidable equality and a total order).
* Instance storage is a partial map from symbol keys to `Address` values
  (the only value type this contract ever stores).
* The oracle at a given address is a response function
  `Address → Asset → Option PriceData`, giving the result of its
  `lastprice` operation for each queried asset.
* A contract invocation yields an `Outcome`: a returned value, a fatal
  abort (Rust `unwrap` panic / platform abort), or a Soroban contract
  error carrying a value of the declared `Error` enum.  The embedded
  functions also record the list of oracle operations they invoke, so
  that call-surface claims can be stated.
-/

namespace ReflectorTutorial

abbrev Address := String

abbrev Symbol := String

/-- `Asset` from `src/reflector.rs`: either a Stellar address or a generic
symbol. -/
inductive Asset : Type where
  | Stellar (addr : Address)
  | Other (sym : Symbol)
deriving DecidableEq, Repr

/-- `PriceData` from `src/reflector.rs`: a signed 128-bit price and an
unsigned 64-bit timestamp. -/
structure PriceData : Type where
  price : Int
  timestamp : Nat
deriving DecidableEq, Repr

/-- The `Error` enum from `src/reflector.rs`. -/
inductive Error : Type where
  | AlreadyInitialized
  | Unauthorized
  | AssetMissing
  | AssetAlreadyExists
  | InvalidConfigVersion
  | InvalidTimestamp
  | InvalidUpdateLength
  | AssetLimitExceeded
deriving DecidableEq, Repr

/-- The numeric discriminants assigned to `Error` in `src/reflector.rs`. -/
def Error.code : Error → Nat
  | .AlreadyInitialized => 0
  | .Unauthorized => 1
  | .AssetMissing => 2
  | .AssetAlreadyExists => 3
  | .InvalidConfigVersion => 4
  | .InvalidTimestamp => 5
  | .InvalidUpdateLength => 6
  | .AssetLimitExceeded => 7

/-- One invocation of an operation of the oracle trait `Contract` declared in
`src/reflector.rs` (one constructor per trait method, carrying the
caller-supplied arguments). -/
inductive OracleCall : Type where
  | base
  | assets
  | decimals
  | price (asset : Asset) (timestamp : Nat)
  | lastprice (asset : Asset)
  | prices (asset : Asset) (records : Nat)
  | x_last_price (base_asset : Asset) (quote_asset : Asset)
  | x_price (base_asset : Asset) (quote_asset : Asset) (timestamp : Nat)
  | x_prices (base_asset : Asset) (quote_asset : Asset) (records : Nat)
  | twap (asset : Asset) (records : Nat)
  | x_twap (base_asset : Asset) (quote_asset : Asset) (records : Nat)
  | resolution
  | period
  | last_timestamp
  | version
  | admin
deriving DecidableEq, Repr

/-- Instance storage of the contract: a partial map from symbol keys to
addresses (the only value type this contract stores). -/
def Storage : Type := Symbol → Option Address

/-- `env.storage().instance().get(&key)`. -/
def Storage.get (st : Storage) (key : Symbol) : Option Address := st key

/-- `env.storage().instance().set(&key, &v)`. -/
def Storage.set (st : Storage) (key : Symbol) (v : Address) : Storage :=
  fun k => if k = key then some v else st k

/-- Storage of a freshly deployed contract, before construction. -/
def Storage.empty : Storage := fun _ => none

/-- Result of one contract invocation: a returned value, a fatal abort
(`unwrap` panic / platform abort), or a Soroban contract error carrying a
declared `Error` value. -/
inductive Outcome (α : Type) : Type where
  | ok (v : α)
  | abort
  | err (e : Error)
deriving Repr

/-- The response behaviour of the deployed oracle contracts: for each
address, the value its `lastprice` operation returns for each asset. -/
def OracleEnv : Type := Address → Asset → Option PriceData

/-- The compile-time oracle address literal in `Contract::__constructor`. -/
def oracleAddress : Address :=
  "CCYOZJCOPG34LLQQ7N24YXBM7LL62R7ONMZ3G6WZAAYPB5OYKOMJRN63"

/-- `Contract::__constructor` from `src/lib.rs`: stores the fixed oracle
address under the instance-storage key `"oracle"`. -/
def constructor (st : Storage) : Outcome Storage :=
  Outcome.ok (Storage.set st "oracle" oracleAddress)

/-- `Contract::hello_xlm` from `src/lib.rs`: reads the `"oracle"` slot
(aborting, as `.unwrap()` does, if it is absent), calls the oracle's
`lastprice` for `Asset::Other("XLM")`, and returns the price, or `-1` when
the oracle has no data.  The result carries the returned `i128`, the
storage after the call, and the list of oracle operations invoked. -/
def hello_xlm (oracle : OracleEnv) (st : Storage) :
    Outcome (Int × Storage × List OracleCall) :=
  match Storage.get st "oracle" with
  | none => Outcome.abort
  | some oracle_address =>
    let xlm_asset : Asset := Asset.Other "XLM"
    let price_data := oracle oracle_address xlm_asset
    match price_data with
    | some data => Outcome.ok (data.price, st, [OracleCall.lastprice xlm_asset])
    | none => Outcome.ok (-1, st, [OracleCall.lastprice xlm_asset])

/-- Storages reachable through the contract's public surface: the storage
produced by construction (from the fresh deployment storage), and any
storage left by a successful `hello_xlm` invocation on a reachable
storage, under an arbitrary oracle environment. -/
inductive Reachable : Storage → Prop where
  | constructed (st : Storage) :
      constructor Storage.empty = Outcome.ok st → Reachable st
  | query (oracle : OracleEnv) (st : Storage) (ret : Int) (st' : Storage)
      (calls : List OracleCall) :
      Reachable st →
      hello_xlm oracle st = Outcome.ok (ret, st', calls) →
      Reachable st'

/-- The order on `Asset` derived in `src/reflector.rs`
(`#[derive(..., Ord, PartialOrd)]`): variant tag first
(`Stellar` before `Other`), payload second. -/
def Asset.le : Asset → Asset → Prop
  | .Stellar a, .Stellar b => a ≤ b
  | .Stellar _, .Other _ => True
  | .Other _, .Stellar _ => False
  | .Other a, .Other b => a ≤ b

instance Asset.decLe (a b : Asset) : Decidable (Asset.le a b) :=
  match a, b with
  | .Stellar a, .Stellar b => inferInstanceAs (Decidable (a ≤ b))
  | .Stellar _, .Other _ => Decidable.isTrue trivial
  | .Other _, .Stellar _ => Decidable.isFalse id
  | .Other a, .Other b => inferInstanceAs (Decidable (a ≤ b))

/-- The corresponding strict order on `Asset`. -/
def Asset.lt (a b : Asset) : Prop := Asset.le a b ∧ ¬ Asset.le b a

end ReflectorTutorial

open ReflectorTutorial

/-- Helper: the value of `hello_xlm` when the `"oracle"` slot holds an
address and the oracle answers `lastprice(Other("XLM"))` with a record. -/
theorem hello_xlm_eq_some
    (oracle : OracleEnv) (st : Storage) (addr : Address) (data : PriceData)
    (hslot : Storage.get st "oracle" = some addr)
    (hresp : oracle addr (Asset.Other "XLM") = some data) :
    hello_xlm oracle st =
      Outcome.ok (data.price, st, [OracleCall.lastprice (Asset.Other "XLM")]) := by
  unfold hello_xlm
  rw [hslot]
  simp [hresp]

/-- Helper: the value of `hello_xlm` when the `"oracle"` slot holds an
address and the oracle answers `lastprice(Other("XLM"))` with the absent
case. -/
theorem hello_xlm_eq_none
    (oracle : OracleEnv) (st : Storage) (addr : Address)
    (hslot : Storage.get st "oracle" = some addr)
    (hresp : oracle addr (Asset.Other "XLM") = none) :
    hello_xlm oracle st =
      Outcome.ok (-1, st, [OracleCall.lastprice (Asset.Other "XLM")]) := by
  unfold hello_xlm
  rw [hslot]
  simp [hresp]

/-- C1: if the `"oracle"` slot holds some address and the oracle at that
address answers `lastprice(Other("XLM"))` with `PriceData{price := P,
timestamp := T}`, then `hello_xlm` returns exactly `P` (leaving storage
unchanged, having made exactly the one `lastprice` call). -/
theorem hello_xlm_returns_oracle_price
    (oracle : OracleEnv) (st : Storage) (addr : Address) (P : Int) (T : Nat)
    (hslot : Storage.get st "oracle" = some addr)
    (hresp : oracle addr (Asset.Other "XLM") =
      some { price := P, timestamp := T }) :
    hello_xlm oracle st =
      Outcome.ok (P, st, [OracleCall.lastprice (Asset.Other "XLM")]) :=
  hello_xlm_eq_some oracle st addr { price := P, timestamp := T } hslot hresp

/-- Witness for C1: a concrete run in which the oracle reports price
`105000000` at timestamp `1700000000` and `hello_xlm` returns `105000000`. -/
theorem hello_xlm_returns_oracle_price_witness :
    hello_xlm
      (fun _ a => if a = Asset.Other "XLM"
        then some { price := 105000000, timestamp := 1700000000 } else none)
      (Storage.set Storage.empty "oracle" oracleAddress) =
      Outcome.ok (105000000, Storage.set Storage.empty "oracle" oracleAddress,
        [OracleCall.lastprice (Asset.Other "XLM")]) :=
  hello_xlm_returns_oracle_price _ _ oracleAddress 105000000 1700000000
    (by decide) (by decide)

/-- C2: if the `"oracle"` slot holds some address and the oracle at that
address answers `lastprice(Other("XLM"))` with the absent case, then
`hello_xlm` returns exactly `-1`. -/
theorem hello_xlm_returns_sentinel_on_absent
    (oracle : OracleEnv) (st : Storage) (addr : Address)
    (hslot : Storage.get st "oracle" = some addr)
    (hresp : oracle addr (Asset.Other "XLM") = none) :
    hello_xlm oracle st =
      Outcome.ok (-1, st, [OracleCall.lastprice (Asset.Other "XLM")]) :=
  hello_xlm_eq_none oracle st addr hslot hresp

/-- Witness for C2: with an oracle that has no data at all, `hello_xlm`
on the constructed storage returns `-1`. -/
theorem hello_xlm_returns_sentinel_on_absent_witness :
    hello_xlm (fun _ _ => none)
      (Storage.set Storage.empty "oracle" oracleAddress) =
      Outcome.ok (-1, Storage.set Storage.empty "oracle" oracleAddress,
        [OracleCall.lastprice (Asset.Other "XLM")]) :=
  hello_xlm_returns_sentinel_on_absent _ _ oracleAddress (by decide) rfl

/-- Helper: a successful `hello_xlm` invocation leaves storage unchanged
(the code performs no storage write). -/
theorem hello_xlm_preserves_storage
    (oracle : OracleEnv) (st : Storage) (ret : Int) (st' : Storage)
    (calls : List OracleCall)
    (h : hello_xlm oracle st = Outcome.ok (ret, st', calls)) : st' = st := by
  unfold hello_xlm at h
  cases hslot : Storage.get st "oracle" with
  | none => rw [hslot] at h; exact absurd h (by simp)
  | some addr =>
    rw [hslot] at h
    dsimp only at h
    cases hresp : oracle addr (Asset.Other "XLM") with
    | none => rw [hresp] at h; injection h with h; injection h; simp_all
    | some data => rw [hresp] at h; injection h with h; injection h; simp_all

/-- C3: every storage reachable after construction (through any number of
public invocations) holds exactly the fixed compile-time oracle address in
the `"oracle"` slot. -/
theorem reachable_oracle_slot_fixed (st : Storage) (h : Reachable st) :
    Storage.get st "oracle" = some oracleAddress := by
  induction h with
  | constructed st hc =>
    injection hc with hc
    rw [← hc]
    simp [Storage.get, Storage.set]
  | query oracle st ret st' calls _ hq ih =>
    rw [hello_xlm_preserves_storage oracle st ret st' calls hq]
    exact ih

/-- Witness for C3: the storage produced by construction itself is
reachable, and its `"oracle"` slot holds the fixed address. -/
theorem reachable_oracle_slot_fixed_witness :
    Storage.get (Storage.set Storage.empty "oracle" oracleAddress) "oracle" =
      some oracleAddress :=
  reachable_oracle_slot_fixed _
    (Reachable.constructed (Storage.set Storage.empty "oracle" oracleAddress) rfl)

/-- C4: a `hello_xlm` invocation never mutates the `"oracle"` slot: whenever
it returns, the slot value after the call equals the slot value before,
for every starting storage and every oracle environment. -/
theorem hello_xlm_frames_oracle_slot
    (oracle : OracleEnv) (st : Storage) (ret : Int) (st' : Storage)
    (calls : List OracleCall)
    (h : hello_xlm oracle st = Outcome.ok (ret, st', calls)) :
    Storage.get st' "oracle" = Storage.get st "oracle" := by
  rw [hello_xlm_preserves_storage oracle st ret st' calls h]

/-- Witness for C4: a concrete invocation on the constructed storage leaves
the `"oracle"` slot reading unchanged. -/
theorem hello_xlm_frames_oracle_slot_witness :
    Storage.get (Storage.set Storage.empty "oracle" oracleAddress) "oracle" =
      Storage.get (Storage.set Storage.empty "oracle" oracleAddress) "oracle" :=
  hello_xlm_frames_oracle_slot (fun _ _ => none)
    (Storage.set Storage.empty "oracle" oracleAddress) (-1)
    (Storage.set Storage.empty "oracle" oracleAddress)
    [OracleCall.lastprice (Asset.Other "XLM")]
    (hello_xlm_eq_none _ _ oracleAddress (by decide) rfl)

/-- C5: if the `"oracle"` slot is absent, `hello_xlm` aborts fatally
(the `.unwrap()` panic); conversely, whenever the slot is present — as it
is in every post-construction state — the abort branch is unreachable. -/
theorem hello_xlm_abort_iff_slot_absent (oracle : OracleEnv) (st : Storage) :
    (Storage.get st "oracle" = none → hello_xlm oracle st = Outcome.abort) ∧
    (∀ addr : Address, Storage.get st "oracle" = some addr →
      hello_xlm oracle st ≠ Outcome.abort) := by
  constructor
  · intro hnone
    unfold hello_xlm
    rw [hnone]
  · intro addr hsome
    unfold hello_xlm
    rw [hsome]
    dsimp only
    cases hresp : oracle addr (Asset.Other "XLM") <;> simp

/-- Witness for C5: on the fresh (pre-construction) storage `hello_xlm`
aborts, and on the constructed storage it does not abort. -/
theorem hello_xlm_abort_iff_slot_absent_witness :
    hello_xlm (fun _ _ => none) Storage.empty = Outcome.abort ∧
    hello_xlm (fun _ _ => none)
      (Storage.set Storage.empty "oracle" oracleAddress) ≠ Outcome.abort :=
  ⟨(hello_xlm_abort_iff_slot_absent (fun _ _ => none) Storage.empty).1 rfl,
   (hello_xlm_abort_iff_slot_absent (fun _ _ => none)
      (Storage.set Storage.empty "oracle" oracleAddress)).2 oracleAddress
      (by decide)⟩

/-- C6: whenever the `"oracle"` slot is present, `hello_xlm` invokes exactly
one oracle operation, namely `lastprice`, with the asset built as the
`Other` variant carrying the symbol `"XLM"` — never the `Stellar` variant
and never any other oracle operation. -/
theorem hello_xlm_calls_only_lastprice_other_xlm
    (oracle : OracleEnv) (st : Storage) (addr : Address)
    (hslot : Storage.get st "oracle" = some addr) :
    ∃ ret : Int, hello_xlm oracle st =
      Outcome.ok (ret, st, [OracleCall.lastprice (Asset.Other "XLM")]) := by
  cases hresp : oracle addr (Asset.Other "XLM") with
  | none =>
    exact ⟨-1, hello_xlm_eq_none oracle st addr hslot hresp⟩
  | some data =>
    exact ⟨data.price, hello_xlm_eq_some oracle st addr data hslot hresp⟩

/-- Witness for C6: a concrete run whose call trace is the single
`lastprice(Other("XLM"))` invocation. -/
theorem hello_xlm_calls_only_lastprice_other_xlm_witness :
    ∃ ret : Int, hello_xlm (fun _ _ => none)
      (Storage.set Storage.empty "oracle" oracleAddress) =
      Outcome.ok (ret, Storage.set Storage.empty "oracle" oracleAddress,
        [OracleCall.lastprice (Asset.Other "XLM")]) :=
  hello_xlm_calls_only_lastprice_other_xlm (fun _ _ => none)
    (Storage.set Storage.empty "oracle" oracleAddress) oracleAddress (by decide)

/-- C7: the sentinel encoding is lossy: the absent oracle response and the
distinct present response `PriceData{price := -1, timestamp := T}` make
`hello_xlm` return the identical value `-1`, so a caller cannot tell
"no data" from a genuine price of `-1`. -/
theorem hello_xlm_sentinel_is_lossy
    (o1 o2 : OracleEnv) (st : Storage) (addr : Address) (T : Nat)
    (hslot : Storage.get st "oracle" = some addr)
    (h1 : o1 addr (Asset.Other "XLM") = none)
    (h2 : o2 addr (Asset.Other "XLM") = some { price := -1, timestamp := T }) :
    o1 addr (Asset.Other "XLM") ≠ o2 addr (Asset.Other "XLM") ∧
    hello_xlm o1 st = hello_xlm o2 st ∧
    hello_xlm o1 st =
      Outcome.ok (-1, st, [OracleCall.lastprice (Asset.Other "XLM")]) := by
  refine ⟨by rw [h1, h2]; exact fun h => by injection h, ?_, ?_⟩
  · rw [hello_xlm_eq_none o1 st addr hslot h1,
      hello_xlm_eq_some o2 st addr { price := -1, timestamp := T } hslot h2]
  · exact hello_xlm_eq_none o1 st addr hslot h1

/-- Witness for C7: concrete oracles, one absent and one reporting price
`-1` at timestamp `7`, produce the identical `hello_xlm` result. -/
theorem hello_xlm_sentinel_is_lossy_witness :
    (fun (_ : Address) (_ : Asset) => (none : Option PriceData)) oracleAddress
        (Asset.Other "XLM") ≠
      (fun (_ : Address) (_ : Asset) =>
        some { price := -1, timestamp := 7 : PriceData }) oracleAddress
        (Asset.Other "XLM") ∧
    hello_xlm (fun _ _ => none)
        (Storage.set Storage.empty "oracle" oracleAddress) =
      hello_xlm (fun _ _ => some { price := -1, timestamp := 7 })
        (Storage.set Storage.empty "oracle" oracleAddress) ∧
    hello_xlm (fun _ _ => none)
        (Storage.set Storage.empty "oracle" oracleAddress) =
      Outcome.ok (-1, Storage.set Storage.empty "oracle" oracleAddress,
        [OracleCall.lastprice (Asset.Other "XLM")]) :=
  hello_xlm_sentinel_is_lossy (fun _ _ => none)
    (fun _ _ => some { price := -1, timestamp := 7 })
    (Storage.set Storage.empty "oracle" oracleAddress) oracleAddress 7
    (by decide) rfl rfl

/-- C8: no value of the declared `Error` enum is ever produced: for every
starting storage, every oracle environment and every `Error` value, neither
the constructor nor `hello_xlm` results in the contract-error outcome. -/
theorem contract_never_produces_error :
    (∀ (st : Storage) (e : Error), constructor st ≠ Outcome.err e) ∧
    (∀ (oracle : OracleEnv) (st : Storage) (e : Error),
      hello_xlm oracle st ≠ Outcome.err e) := by
  constructor
  · intro st e h
    exact Outcome.noConfusion h
  · intro oracle st e
    unfold hello_xlm
    cases Storage.get st "oracle" with
    | none => exact fun h => Outcome.noConfusion h
    | some addr =>
      dsimp only
      cases oracle addr (Asset.Other "XLM") <;> exact fun h => Outcome.noConfusion h

/-- Witness for C8: concrete invocations of both operations are not the
contract-error outcome. -/
theorem contract_never_produces_error_witness :
    constructor Storage.empty ≠ Outcome.err Error.Unauthorized ∧
    hello_xlm (fun _ _ => none) Storage.empty ≠
      Outcome.err Error.Unauthorized :=
  ⟨contract_never_produces_error.1 Storage.empty Error.Unauthorized,
   contract_never_produces_error.2 (fun _ _ => none) Storage.empty
     Error.Unauthorized⟩

/-- C9: the derived order on `Asset` (variant tag first, payload second) is
reflexive, antisymmetric, transitive and total; every `Stellar` value is
strictly below every `Other` value; and two values with the same tag
compare exactly by their payloads. -/
theorem asset_order_is_total_order :
    (∀ a : Asset, Asset.le a a) ∧
    (∀ a b : Asset, Asset.le a b → Asset.le b a → a = b) ∧
    (∀ a b c : Asset, Asset.le a b → Asset.le b c → Asset.le a c) ∧
    (∀ a b : Asset, Asset.le a b ∨ Asset.le b a) ∧
    (∀ (addr : Address) (sym : Symbol),
      Asset.lt (Asset.Stellar addr) (Asset.Other sym)) ∧
    (∀ a b : Address, Asset.le (Asset.Stellar a) (Asset.Stellar b) ↔ a ≤ b) ∧
    (∀ a b : Symbol, Asset.le (Asset.Other a) (Asset.Other b) ↔ a ≤ b) := by
  refine ⟨?_, ?_, ?_, ?_, ?_, ?_, ?_⟩
  · intro a; cases a <;> simp only [Asset.le] <;> exact le_refl _
  · intro a b h1 h2
    cases a <;> cases b <;>
      simp only [Asset.le, Asset.Stellar.injEq, Asset.Other.injEq] at h1 h2 ⊢ <;>
      exact le_antisymm h1 h2
  · intro a b c h1 h2
    cases a <;> cases b <;> cases c <;>
      simp only [Asset.le] at h1 h2 ⊢ <;>
      exact le_trans h1 h2
  · intro a b
    cases a <;> cases b <;> simp only [Asset.le] <;>
      first
        | exact le_total _ _
        | exact Or.inl trivial
        | exact Or.inr trivial
  · intro addr sym
    exact ⟨trivial, fun h => h⟩
  · intro a b; exact Iff.rfl
  · intro a b; exact Iff.rfl

/-- Witness for C9: antisymmetry applied at two equal concrete assets, and
the strict tag comparison at concrete payloads. -/
theorem asset_order_is_total_order_witness :
    Asset.Other "XLM" = Asset.Other "XLM" ∧
    Asset.lt (Asset.Stellar "A") (Asset.Other "XLM") :=
  ⟨asset_order_is_total_order.2.1 (Asset.Other "XLM") (Asset.Other "XLM")
      (le_refl "XLM") (le_refl "XLM"),
   asset_order_is_total_order.2.2.2.2.1 "A" "XLM"⟩

/-- C10: the result of `hello_xlm` depends only on the presence and the
price field of the oracle response, not on the timestamp: two oracle
environments answering `lastprice(Other("XLM"))` with the same price `P`
at arbitrary timestamps `T1`, `T2` yield identical invocation results. -/
theorem hello_xlm_independent_of_timestamp
    (o1 o2 : OracleEnv) (st : Storage) (addr : Address) (P : Int) (T1 T2 : Nat)
    (hslot : Storage.get st "oracle" = some addr)
    (h1 : o1 addr (Asset.Other "XLM") = some { price := P, timestamp := T1 })
    (h2 : o2 addr (Asset.Other "XLM") = some { price := P, timestamp := T2 }) :
    hello_xlm o1 st = hello_xlm o2 st := by
  rw [hello_xlm_eq_some o1 st addr { price := P, timestamp := T1 } hslot h1,
    hello_xlm_eq_some o2 st addr { price := P, timestamp := T2 } hslot h2]

/-- Witness for C10: two concrete oracles reporting price `5` at the
distinct timestamps `1` and `2` give identical `hello_xlm` results. -/
theorem hello_xlm_independent_of_timestamp_witness :
    hello_xlm (fun _ _ => some { price := 5, timestamp := 1 })
        (Storage.set Storage.empty "oracle" oracleAddress) =
      hello_xlm (fun _ _ => some { price := 5, timestamp := 2 })
        (Storage.set Storage.empty "oracle" oracleAddress) :=
  hello_xlm_independent_of_timestamp
    (fun _ _ => some { price := 5, timestamp := 1 })
    (fun _ _ => some { price := 5, timestamp := 2 })
    (Storage.set Storage.empty "oracle" oracleAddress) oracleAddress 5 1 2
    (by decide) rfl rfl
